import Mathlib

/-
Verification of the claim-rewards automation script (src/net.py).

The embedding below models the three functions of the source:
  - make_request : the retrying HTTP dispatcher (net.py lines 25-59),
  - process_user : the per-account claim workflow (net.py lines 61-142),
  - main         : the account-list fetch and worker-pool setup
                   (net.py lines 144-166).

External effects are modelled by oracles: the HTTP transport is a
function from attempt number to an attempt result, and the per-workflow
network environment gives the outcome of each endpoint call.  JSON
values decoded by the Python json module are modelled by the PyVal
type; Python dicts are association lists with unique keys, as produced
by json.loads.
-/

namespace TGBot

/-- A decoded Python value, as produced by response.json() in net.py.
Dicts are association lists whose keys are unique, matching the dicts
that json.loads builds. -/
inductive PyVal where
  | pynull
  | pybool (b : Bool)
  | pyint (n : Int)
  | pystr (s : String)
  | pylist (xs : List PyVal)
  | pydict (kvs : List (String × PyVal))

/-- Python dict lookup: first binding of the key in the association
list (keys are unique, so first equals only). -/
def dget : List (String × PyVal) → String → Option PyVal
  | [], _ => none
  | (k, v) :: rest, key => if k == key then some v else dget rest key

/-- Whether the list of characters begins with the needle. -/
def charsPre : List Char → List Char → Bool
  | [], _ => true
  | _ :: _, [] => false
  | a :: as, b :: bs => a == b && charsPre as bs

/-- Whether the needle occurs as a contiguous run in the haystack. -/
def charsContain (needle : List Char) : List Char → Bool
  | [] => charsPre needle []
  | b :: bs => charsPre needle (b :: bs) || charsContain needle bs

/-- Python substring containment: needle in hay for str values. -/
def strContainsSub (hay needle : String) : Bool :=
  charsContain needle.data hay.data

/-- Python exceptions that the modelled code paths can raise. -/
inductive PyErr where
  | typeError
  | attributeError
  | keyError
  | valueError

/-- Python membership test with a str needle: key lookup on a dict,
substring test on a str, element equality on a list; TypeError on
null, bool and int, which are not containers. -/
def pyContainsStr : PyVal → String → Except PyErr Bool
  | .pydict kvs, k => .ok (dget kvs k).isSome
  | .pystr s, k => .ok (strContainsSub s k)
  | .pylist xs, k =>
      .ok (xs.any (fun v => match v with | .pystr s => s == k | _ => false))
  | _, _ => .error .typeError

/-- Python subscription v[k] with a str key: dict lookup (KeyError when
absent); TypeError on every non-dict value, since str and list reject
str indices. -/
def pySub : PyVal → String → Except PyErr PyVal
  | .pydict kvs, k =>
      match dget kvs k with
      | some x => .ok x
      | none => .error .keyError
  | _, _ => .error .typeError

/-- Python truthiness of a decoded value. -/
def pyTruthy : PyVal → Bool
  | .pynull => false
  | .pybool b => b
  | .pyint n => n != 0
  | .pystr s => !(s == "")
  | .pylist xs => !xs.isEmpty
  | .pydict kvs => !kvs.isEmpty

/-- Result of one dispatched request, net.py lines 41, 44 and 59:
decoded JSON, raw body text when a 2xx body fails JSON decoding, or
None when every attempt failed. -/
inductive ReqOutcome where
  | jsonValue (v : PyVal)
  | rawText (s : String)
  | failed

/-- The Python value a caller of make_request receives: the decoded
JSON, the raw text as a str, or None. -/
def outcomeVal : ReqOutcome → PyVal
  | .jsonValue v => v
  | .rawText s => .pystr s
  | .failed => .pynull

/-- What the transport does on one attempt of make_request: either the
requests call raises RequestException (net.py line 50), or it yields a
response with a status code, a body that may or may not decode as JSON,
and the raw body text. -/
inductive AttemptResult where
  | transportError
  | response (status : Nat) (body : Option PyVal) (text : String)

/-- Whether an attempt counts as failed for the retry loop: a transport
error, or a response whose status is outside [200, 300). -/
def attemptFails : AttemptResult → Bool
  | .transportError => true
  | .response status _ _ => !(decide (200 ≤ status ∧ status < 300))

/-- How one iteration of the retry loop in make_request ends: an early
return with an outcome, or falling through to the retry logic. -/
inductive AttemptOutcome where
  | done (r : ReqOutcome)
  | retry

/-- One iteration of the make_request loop body, net.py lines 28-51: a
2xx response returns the decoded JSON, or the raw text when decoding
fails; any other status and any transport error fall through to the
retry logic. -/
def attemptStep : AttemptResult → AttemptOutcome
  | .transportError => .retry
  | .response status body text =>
      if 200 ≤ status ∧ status < 300 then
        match body with
        | some v => .done (.jsonValue v)
        | none => .done (.rawText text)
      else .retry

/-- Backoff delay before the next attempt, net.py line 54:
2 ^ attempt + random.uniform(0, 1).  The jitter u stands for the value
random.uniform(0, 1) returned. -/
def sleepTime (attempt : Nat) (u : ℚ) : ℚ :=
  2 ^ attempt + u

/-- The for loop of make_request, net.py lines 27-59.  fuel is the
number of remaining iterations (retries - attempt).  Returns the
outcome, the number of attempts performed from this point on, and the
list of backoff sleeps performed, each tagged with the attempt number
after which it was slept. -/
def makeRequestLoop (oracle : Nat → AttemptResult) (jitter : Nat → ℚ)
    (retries : Nat) : Nat → Nat → ReqOutcome × Nat × List (Nat × ℚ)
  | _, 0 => (.failed, 0, [])
  | attempt, fuel + 1 =>
    match attemptStep (oracle attempt) with
    | .done r => (r, 1, [])
    | .retry =>
      if attempt < retries - 1 then
        let rest := makeRequestLoop oracle jitter retries (attempt + 1) fuel
        (rest.1, rest.2.1 + 1,
          (attempt, sleepTime attempt (jitter attempt)) :: rest.2.2)
      else
        (.failed, 1, [])

/-- make_request, net.py lines 25-59, with the transport abstracted to
an oracle giving each attempt result and the jitter abstracted to the
sequence of random.uniform(0, 1) draws.  The method, url, headers and
body do not influence control flow and are folded into the oracle.
Returns the outcome, the total number of attempts performed, and the
tagged backoff sleeps.  The source default is retries = 3. -/
def make_request (oracle : Nat → AttemptResult) (jitter : Nat → ℚ)
    (retries : Nat) : ReqOutcome × Nat × List (Nat × ℚ) :=
  makeRequestLoop oracle jitter retries 0 retries

/-- A network call issued by process_user, distinguished by endpoint;
the claim POST carries its request body {id: claim_id}
(net.py lines 87, 97, 128, 138). -/
inductive Call where
  | dashboard
  | claimList
  | claimPost (body : PyVal)
  | refresh

/-- Whether a call is a claim POST. -/
def isClaimCall : Call → Bool
  | .claimPost _ => true
  | _ => false

/-- The network environment one workflow runs against: the outcome of
the dashboard call, of the claim-list call, of the i-th claim POST the
workflow issues, and of the refresh call. -/
structure NetEnv where
  dashboard : ReqOutcome
  claimList : ReqOutcome
  claim : Nat → ReqOutcome
  refresh : ReqOutcome

/-- How a run of process_user ends: reaching the end of the function,
an early return, or an uncaught Python exception. -/
inductive Termination where
  | finished
  | earlyReturn
  | raised (e : PyErr)

/-- The required account fields, net.py line 63. -/
def requiredFields : List String :=
  ["username", "phone", "userid", "access"]

/-- required_fields.issubset(user.keys()), net.py line 64. -/
def requiredOk (user : List (String × PyVal)) : Bool :=
  requiredFields.all (fun k => (dget user k).isSome)

/-- The claim-list shape check of net.py line 100, with Python
short-circuit semantics:
not isinstance(claim_data, dict)
  or not ("data" in claim_data) or not ("attribute" in claim_data["data"]).
The last membership test follows Python in-semantics and can raise
TypeError when the data value is not a container. -/
def claimDataInvalid (cd : PyVal) : Except PyErr Bool :=
  match cd with
  | .pydict kvs =>
      match dget kvs "data" with
      | none => .ok true
      | some d =>
          match pyContainsStr d "attribute" with
          | .ok b => .ok (!b)
          | .error e => .error e
  | _ => .ok true

/-- The list comprehension of net.py line 110: keep an item when it is
a dict and attr.get("enable") is True, i.e. the enable key is bound to
the Boolean True; the kept item is used as a dict afterwards. -/
def enabledFilter : PyVal → Option (List (String × PyVal))
  | .pydict kvs =>
      match dget kvs "enable" with
      | some (.pybool true) => some kvs
      | _ => none
  | _ => none

/-- The claim POST body of net.py line 128: {"id": claim_id}.  The
caller only builds it when the id key is present, so the default is
never used there. -/
def claimBody (kvs : List (String × PyVal)) : PyVal :=
  .pydict [("id", (dget kvs "id").getD .pynull)]

/-- The response handling of one claim POST, net.py lines 130-134:
when the response is truthy and a dict, the chained
response.get of data, then of attribute, then of message, each with an
empty-dict or string default, is evaluated for logging; each .get
after the first raises
AttributeError when its receiver is not a dict.  Returns the exception
raised, if any; otherwise the iteration only logs and continues. -/
def claimRespHandle (resp : ReqOutcome) : Option PyErr :=
  match outcomeVal resp with
  | .pydict kvs =>
      if !kvs.isEmpty then
        match (dget kvs "data").getD (.pydict []) with
        | .pydict akvs =>
            match (dget akvs "attribute").getD (.pydict []) with
            | .pydict _ => none
            | _ => some .attributeError
        | _ => some .attributeError
      else none
  | _ => none

/-- The claim loop of net.py lines 113-134 over the enabled claims:
skip an item when id or campaign_name is missing (line 114), otherwise
issue the claim POST and handle its response; i counts the claim POSTs
issued so far.  Returns the claim calls issued in order and the
exception that aborted the loop, if any. -/
def processClaims (env : NetEnv) :
    List (List (String × PyVal)) → Nat → List Call × Option PyErr
  | [], _ => ([], none)
  | kvs :: rest, i =>
    if (dget kvs "id").isSome && (dget kvs "campaign_name").isSome then
      match claimRespHandle (env.claim i) with
      | some e => ([Call.claimPost (claimBody kvs)], some e)
      | none =>
        let r := processClaims env rest (i + 1)
        (Call.claimPost (claimBody kvs) :: r.1, r.2)
    else processClaims env rest i

/-- process_user, net.py lines 61-142, for one account (a Python dict)
against a network environment.  Returns the calls issued in order and
how the run ended.  The dashboard outcome (line 87) and the refresh
outcome (line 138) are only logged; the final time.sleep(0.5) on line
142 has no modelled effect. -/
def process_user (env : NetEnv) (user : List (String × PyVal)) :
    List Call × Termination :=
  if requiredOk user then
    match claimDataInvalid (outcomeVal env.claimList) with
    | .error e => ([.dashboard, .claimList], .raised e)
    | .ok true => ([.dashboard, .claimList], .earlyReturn)
    | .ok false =>
      match pySub (outcomeVal env.claimList) "data" with
      | .error e => ([.dashboard, .claimList], .raised e)
      | .ok d =>
        match pySub d "attribute" with
        | .error e => ([.dashboard, .claimList], .raised e)
        | .ok (.pylist attrs) =>
          match processClaims env (attrs.filterMap enabledFilter) 0 with
          | (calls, some e) => ([.dashboard, .claimList] ++ calls, .raised e)
          | (calls, none) =>
              ([.dashboard, .claimList] ++ calls ++ [.refresh], .finished)
        | .ok _ => ([.dashboard, .claimList], .earlyReturn)
  else ([], .earlyReturn)

/-- The attribute list process_user extracts when the claim-list
response has the valid shape: a dict whose data key holds a dict whose
attribute key holds a list. -/
def claimAttrs : PyVal → Option (List PyVal)
  | .pydict kvs =>
      match dget kvs "data" with
      | some (.pydict dk) =>
          match dget dk "attribute" with
          | some (.pylist xs) => some xs
          | _ => none
      | _ => none
  | _ => none

/-- Whether the claim-list response has the shape the workflow needs
to proceed to claiming. -/
def goodClaimShape (cd : PyVal) : Bool :=
  (claimAttrs cd).isSome

/-- The claim calls the workflow should issue for a list of enabled
claim dicts: drop those missing id or campaign_name, POST {id: claim_id}
for each of the rest, in order. -/
def claimCallsOf (enabled : List (List (String × PyVal))) : List Call :=
  (enabled.filter
    (fun kvs => (dget kvs "id").isSome && (dget kvs "campaign_name").isSome)
  ).map (fun kvs => Call.claimPost (claimBody kvs))

/-- Models the CPython ThreadPoolExecutor constructor precondition used
on net.py line 157: concurrent.futures raises
ValueError("max_workers must be greater than 0") when max_workers <= 0. -/
def threadPoolInit (maxWorkers : Nat) : Except PyErr Unit :=
  if maxWorkers ≤ 0 then .error .valueError else .ok ()

/-- How main, net.py lines 144-158, ends: early return on a non-list
account payload, completion with the worker count it used, or an
uncaught exception. -/
inductive MainOutcome where
  | invalidUserData
  | completed (maxWorkers : Nat)
  | raised (e : PyErr)

/-- main, net.py lines 144-158, with the account-list fetch outcome
abstracted: return early unless the fetched value is a list, then
build the pool with max_workers = min(4, len(users)). -/
def main (usersResp : ReqOutcome) : MainOutcome :=
  match outcomeVal usersResp with
  | .pylist users =>
      match threadPoolInit (min 4 users.length) with
      | .error e => .raised e
      | .ok _ => .completed (min 4 users.length)
  | _ => .invalidUserData

/-- Result of the top-level guard, net.py lines 160-166: an exception
escaping main is caught and logged as a critical error. -/
inductive RunResult where
  | normal (m : MainOutcome)
  | criticalError (e : PyErr)

/-- The if __name__ == "__main__" wrapper, net.py lines 160-166. -/
def runMain (usersResp : ReqOutcome) : RunResult :=
  match main usersResp with
  | .raised e => .criticalError e
  | m => .normal m

/-! Theorems about the retry dispatcher make_request. -/

theorem attemptStep_retry_of_fails (a : AttemptResult)
    (h : attemptFails a = true) : attemptStep a = .retry := by
  cases a with
  | transportError => rfl
  | response status body text =>
      have hns : ¬(200 ≤ status ∧ status < 300) := by
        intro hc
        simp [attemptFails, hc] at h
      simp [attemptStep, hns]

theorem makeRequestLoop_allFail (oracle : Nat → AttemptResult)
    (jitter : Nat → ℚ) (retries : Nat)
    (h : ∀ i, i < retries → attemptFails (oracle i) = true) :
    ∀ fuel attempt, attempt + fuel = retries →
      (makeRequestLoop oracle jitter retries attempt fuel).1 = .failed ∧
      (makeRequestLoop oracle jitter retries attempt fuel).2.1 = fuel := by
  intro fuel
  induction fuel with
  | zero => intro attempt _; exact ⟨rfl, rfl⟩
  | succ n ih =>
      intro attempt hat
      have hstep : attemptStep (oracle attempt) = .retry :=
        attemptStep_retry_of_fails _ (h attempt (by omega))
      by_cases hlt : attempt < retries - 1
      · have hrec := ih (attempt + 1) (by omega)
        refine ⟨?_, ?_⟩ <;>
          simp [makeRequestLoop, hstep, hlt, hrec.1, hrec.2]
      · refine ⟨?_, ?_⟩ <;> simp [makeRequestLoop, hstep, hlt]
        omega

/-- C1: when every one of the retries attempts fails (transport error
or non-2xx status), make_request performs exactly retries attempts and
returns Failed (None). -/
theorem make_request_all_attempts_fail (oracle : Nat → AttemptResult)
    (jitter : Nat → ℚ) (retries : Nat)
    (h : ∀ i, i < retries → attemptFails (oracle i) = true) :
    (make_request oracle jitter retries).1 = .failed ∧
    (make_request oracle jitter retries).2.1 = retries :=
  makeRequestLoop_allFail oracle jitter retries h retries 0 (by omega)

theorem make_request_all_attempts_fail_witness :
    (∀ i, i < 3 →
      attemptFails ((fun _ => AttemptResult.transportError) i) = true) ∧
    (make_request (fun _ => AttemptResult.transportError) (fun _ => 0) 3).1
      = .failed ∧
    (make_request (fun _ => AttemptResult.transportError) (fun _ => 0) 3).2.1
      = 3 := by
  refine ⟨fun i _ => rfl, ?_⟩
  exact make_request_all_attempts_fail _ _ 3 (fun i _ => rfl)

theorem makeRequestLoop_rawText (oracle : Nat → AttemptResult)
    (jitter : Nat → ℚ) (retries k status : Nat) (text : String)
    (hk : ∀ i, i < k → attemptFails (oracle i) = true)
    (hkr : k < retries)
    (hor : oracle k = .response status none text)
    (h2 : 200 ≤ status) (h3 : status < 300) :
    ∀ fuel attempt, attempt + fuel = retries → attempt ≤ k →
      (makeRequestLoop oracle jitter retries attempt fuel).1
        = .rawText text ∧
      (makeRequestLoop oracle jitter retries attempt fuel).2.1
        = k + 1 - attempt ∧
      ∀ p ∈ (makeRequestLoop oracle jitter retries attempt fuel).2.2,
        p.1 < k := by
  intro fuel
  induction fuel with
  | zero => intro attempt h1 h2b; exfalso; omega
  | succ n ih =>
      intro attempt hat hak
      by_cases heq : attempt = k
      · subst heq
        have hstep : attemptStep (oracle attempt) = .done (.rawText text) := by
          rw [hor]; simp [attemptStep, h2, h3]
        refine ⟨?_, ?_, ?_⟩ <;> simp [makeRequestLoop, hstep]
      · have hlt : attempt < k := by omega
        have hstep : attemptStep (oracle attempt) = .retry :=
          attemptStep_retry_of_fails _ (hk attempt hlt)
        have hltr : attempt < retries - 1 := by omega
        have hrec := ih (attempt + 1) (by omega) (by omega)
        refine ⟨?_, ?_, ?_⟩
        · simp [makeRequestLoop, hstep, hltr, hrec.1]
        · simp [makeRequestLoop, hstep, hltr, hrec.2.1]; omega
        · intro p hp
          simp only [makeRequestLoop, hstep, hltr, if_true] at hp
          simp only [List.mem_cons] at hp
          rcases hp with h | h
          · rw [h]; exact hlt
          · exact hrec.2.2 p h

/-- C2: when attempt k of make_request yields a 2xx response whose
body fails JSON decoding, make_request returns the raw body text
immediately: the total attempt count is k + 1 and every backoff sleep
in the trace precedes attempt k. -/
theorem make_request_rawText_immediate (oracle : Nat → AttemptResult)
    (jitter : Nat → ℚ) (retries k status : Nat) (text : String)
    (hk : ∀ i, i < k → attemptFails (oracle i) = true)
    (hkr : k < retries)
    (hor : oracle k = .response status none text)
    (h2 : 200 ≤ status) (h3 : status < 300) :
    (make_request oracle jitter retries).1 = .rawText text ∧
    (make_request oracle jitter retries).2.1 = k + 1 ∧
    ∀ p ∈ (make_request oracle jitter retries).2.2, p.1 < k := by
  have h := makeRequestLoop_rawText oracle jitter retries k status text
    hk hkr hor h2 h3 retries 0 (by omega) (by omega)
  simpa [make_request] using h

theorem make_request_rawText_immediate_witness :
    (1 < 3) ∧
    (make_request
      (fun i => if i = 0 then AttemptResult.transportError
                else AttemptResult.response 200 none "oops")
      (fun _ => 0) 3).1 = .rawText "oops" ∧
    (make_request
      (fun i => if i = 0 then AttemptResult.transportError
                else AttemptResult.response 200 none "oops")
      (fun _ => 0) 3).2.1 = 2 ∧
    ∀ p ∈ (make_request
      (fun i => if i = 0 then AttemptResult.transportError
                else AttemptResult.response 200 none "oops")
      (fun _ => 0) 3).2.2, p.1 < 1 := by
  refine ⟨by omega, ?_⟩
  have h := make_request_rawText_immediate
    (fun i => if i = 0 then AttemptResult.transportError
              else AttemptResult.response 200 none "oops")
    (fun _ => 0) 3 1 200 "oops"
    (fun i hi => by
      have hz : i = 0 := by omega
      subst hz; rfl)
    (by omega) rfl (by omega) (by omega)
  simpa using h

theorem makeRequestLoop_sleeps (oracle : Nat → AttemptResult)
    (jitter : Nat → ℚ) (retries : Nat) :
    ∀ fuel attempt p,
      p ∈ (makeRequestLoop oracle jitter retries attempt fuel).2.2 →
      p.1 < retries - 1 ∧ p.2 = sleepTime p.1 (jitter p.1) := by
  intro fuel
  induction fuel with
  | zero => intro attempt p hp; simp [makeRequestLoop] at hp
  | succ n ih =>
      intro attempt p hp
      cases hstep : attemptStep (oracle attempt) with
      | done r => simp [makeRequestLoop, hstep] at hp
      | retry =>
          by_cases hlt : attempt < retries - 1
          · simp only [makeRequestLoop, hstep, hlt, if_true,
              List.mem_cons] at hp
            rcases hp with h | h
            · rw [h]; exact ⟨hlt, rfl⟩
            · exact ih _ p h
          · simp [makeRequestLoop, hstep, hlt] at hp

/-- C7: under jitter draws in [0, 1), every backoff sleep performed by
make_request is tagged with an attempt number below retries - 1, equals
2 ^ attempt + jitter, and lies in the interval from 2 ^ attempt
inclusive to 2 ^ attempt + 1 exclusive. -/
theorem make_request_backoff_bounds (oracle : Nat → AttemptResult)
    (jitter : Nat → ℚ) (retries : Nat)
    (hj : ∀ i, 0 ≤ jitter i ∧ jitter i < 1) :
    ∀ p ∈ (make_request oracle jitter retries).2.2,
      p.1 < retries - 1 ∧ p.2 = sleepTime p.1 (jitter p.1) ∧
      2 ^ p.1 ≤ p.2 ∧ p.2 < 2 ^ p.1 + 1 := by
  intro p hp
  obtain ⟨h1, h2⟩ := makeRequestLoop_sleeps oracle jitter retries retries 0 p hp
  refine ⟨h1, h2, ?_, ?_⟩
  · rw [h2]; unfold sleepTime; have := (hj p.1).1; linarith
  · rw [h2]; unfold sleepTime; have := (hj p.1).2; linarith

theorem make_request_backoff_bounds_witness :
    ((0:ℚ) ≤ 1/2 ∧ (1:ℚ)/2 < 1) ∧
    ∀ p ∈ (make_request (fun _ => AttemptResult.transportError)
      (fun _ => (1:ℚ)/2) 2).2.2,
      p.1 < 2 - 1 ∧ p.2 = sleepTime p.1 (1/2) ∧
      (2:ℚ) ^ p.1 ≤ p.2 ∧ p.2 < 2 ^ p.1 + 1 := by
  constructor
  · norm_num
  · intro p hp
    have h := make_request_backoff_bounds
      (fun _ => AttemptResult.transportError) (fun _ => (1:ℚ)/2) 2
      (fun i => by norm_num) p hp
    simpa using h

/-! Theorems about the per-account workflow process_user. -/

theorem processClaims_ok (env : NetEnv)
    (hr : ∀ i, claimRespHandle (env.claim i) = none) :
    ∀ l i, processClaims env l i = (claimCallsOf l, none) := by
  intro l
  induction l with
  | nil => intro i; rfl
  | cons kvs rest ih =>
      intro i
      by_cases hg : ((dget kvs "id").isSome
          && (dget kvs "campaign_name").isSome) = true
      · simp [processClaims, claimCallsOf, List.filter_cons, hg, hr i,
          ih (i + 1)]
      · simp [processClaims, claimCallsOf, List.filter_cons, hg, ih i]

theorem claimAttrs_of_checks (cd d : PyVal) (attrs : List PyVal)
    (hs1 : pySub cd "data" = .ok d)
    (hs2 : pySub d "attribute" = .ok (.pylist attrs)) :
    claimAttrs cd = some attrs := by
  cases cd with
  | pydict kvs =>
      cases hdata : dget kvs "data" with
      | none => simp [pySub, hdata] at hs1
      | some d0 =>
          have hd0 : d0 = d := by
            simpa [pySub, hdata] using hs1
          subst hd0
          cases d0 with
          | pydict dk =>
              cases hattr : dget dk "attribute" with
              | none => simp [pySub, hattr] at hs2
              | some a =>
                  have ha : a = .pylist attrs := by
                    simpa [pySub, hattr] using hs2
                  simp [claimAttrs, hdata, hattr, ha]
          | pynull => simp [pySub] at hs2
          | pybool b => simp [pySub] at hs2
          | pyint n => simp [pySub] at hs2
          | pystr s => simp [pySub] at hs2
          | pylist xs => simp [pySub] at hs2
  | pynull => simp [pySub] at hs1
  | pybool b => simp [pySub] at hs1
  | pyint n => simp [pySub] at hs1
  | pystr s => simp [pySub] at hs1
  | pylist xs => simp [pySub] at hs1

theorem claimAttrs_some (cd : PyVal) (attrs : List PyVal)
    (hc : claimAttrs cd = some attrs) :
    ∃ kvs dk, cd = .pydict kvs ∧ dget kvs "data" = some (.pydict dk) ∧
      dget dk "attribute" = some (.pylist attrs) := by
  cases cd with
  | pydict kvs =>
      cases hdata : dget kvs "data" with
      | none => simp [claimAttrs, hdata] at hc
      | some d =>
          cases d with
          | pydict dk =>
              cases hattr : dget dk "attribute" with
              | none => simp [claimAttrs, hdata, hattr] at hc
              | some a =>
                  cases a with
                  | pylist xs =>
                      have hx : xs = attrs := by
                        simpa [claimAttrs, hdata, hattr] using hc
                      exact ⟨kvs, dk, rfl, hdata, by rw [hattr, hx]⟩
                  | pynull => simp [claimAttrs, hdata, hattr] at hc
                  | pybool b => simp [claimAttrs, hdata, hattr] at hc
                  | pyint n => simp [claimAttrs, hdata, hattr] at hc
                  | pystr s => simp [claimAttrs, hdata, hattr] at hc
                  | pydict dk2 => simp [claimAttrs, hdata, hattr] at hc
          | pynull => simp [claimAttrs, hdata] at hc
          | pybool b => simp [claimAttrs, hdata] at hc
          | pyint n => simp [claimAttrs, hdata] at hc
          | pystr s => simp [claimAttrs, hdata] at hc
          | pylist xs => simp [claimAttrs, hdata] at hc
  | pynull => simp [claimAttrs] at hc
  | pybool b => simp [claimAttrs] at hc
  | pyint n => simp [claimAttrs] at hc
  | pystr s => simp [claimAttrs] at hc
  | pylist xs => simp [claimAttrs] at hc

theorem process_user_good (env : NetEnv) (user : List (String × PyVal))
    (attrs : List PyVal)
    (hu : requiredOk user = true)
    (hc : claimAttrs (outcomeVal env.claimList) = some attrs)
    (hr : ∀ i, claimRespHandle (env.claim i) = none) :
    process_user env user =
      ([Call.dashboard, Call.claimList]
        ++ claimCallsOf (attrs.filterMap enabledFilter) ++ [Call.refresh],
       Termination.finished) := by
  obtain ⟨kvs, dk, hcd, hdata, hattr⟩ := claimAttrs_some _ _ hc
  have hpc := processClaims_ok env hr (attrs.filterMap enabledFilter) 0
  unfold process_user
  rw [hcd]
  simp [hu, claimDataInvalid, hdata, pyContainsStr, hattr, pySub, hpc]

/-- C3: when the claim-list response is not a JSON object holding a
data key whose value holds an attribute key bound to a list, the
workflow issues no claim POST and no refresh call for that account. -/
theorem process_user_badShape_no_claims (env : NetEnv)
    (user : List (String × PyVal))
    (h : goodClaimShape (outcomeVal env.claimList) = false) :
    ∀ c ∈ (process_user env user).1,
      c ≠ Call.refresh ∧ ∀ b, c ≠ Call.claimPost b := by
  have htr : (process_user env user).1 = [] ∨
      (process_user env user).1 = [Call.dashboard, Call.claimList] := by
    unfold process_user
    by_cases hu : requiredOk user = true
    · cases hcd : claimDataInvalid (outcomeVal env.claimList) with
      | error e => simp [hu, hcd]
      | ok b =>
          cases b with
          | true => simp [hu, hcd]
          | false =>
              cases hs1 : pySub (outcomeVal env.claimList) "data" with
              | error e => simp [hu, hcd, hs1]
              | ok d =>
                  cases hs2 : pySub d "attribute" with
                  | error e => simp [hu, hcd, hs1, hs2]
                  | ok a =>
                      cases a with
                      | pylist xs =>
                          have := claimAttrs_of_checks _ _ _ hs1 hs2
                          rw [goodClaimShape, this] at h
                          simp at h
                      | pynull => simp [hu, hcd, hs1, hs2]
                      | pybool b2 => simp [hu, hcd, hs1, hs2]
                      | pyint n => simp [hu, hcd, hs1, hs2]
                      | pystr s => simp [hu, hcd, hs1, hs2]
                      | pydict kvs2 => simp [hu, hcd, hs1, hs2]
    · simp [hu]
  intro c hcmem
  rcases htr with htr | htr <;> rw [htr] at hcmem
  · simp at hcmem
  · simp only [List.mem_cons, List.mem_singleton, List.not_mem_nil] at hcmem
    rcases hcmem with rfl | rfl | hfalse
    · exact ⟨by simp, fun b => by simp⟩
    · exact ⟨by simp, fun b => by simp⟩
    · exact absurd hfalse (by simp)

/-- The account record used by concrete workflow runs below: all four
required fields are present. -/
def sampleUser : List (String × PyVal) :=
  [("username", .pystr "u"), ("phone", .pystr "p"),
   ("userid", .pystr "i"), ("access", .pystr "a")]

/-- A network environment whose claim-list call has the given outcome
and whose other calls all fail. -/
def envFailedWith (cl : ReqOutcome) : NetEnv :=
  ⟨.failed, cl, fun _ => .failed, .failed⟩

theorem process_user_badShape_no_claims_witness :
    goodClaimShape (outcomeVal
      (envFailedWith (.jsonValue (.pydict [("other", .pynull)]))).claimList)
      = false ∧
    ∀ c ∈ (process_user
      (envFailedWith (.jsonValue (.pydict [("other", .pynull)])))
      sampleUser).1,
      c ≠ Call.refresh ∧ ∀ b, c ≠ Call.claimPost b :=
  ⟨rfl, process_user_badShape_no_claims _ _ rfl⟩

/-- C6: an account record missing a required field makes process_user
return immediately with an empty call trace: no dashboard, claim-list,
claim or refresh request is issued. -/
theorem process_user_invalid_account (env : NetEnv)
    (user : List (String × PyVal)) (h : requiredOk user = false) :
    process_user env user = ([], Termination.earlyReturn) := by
  unfold process_user
  simp [h]

theorem process_user_invalid_account_witness :
    requiredOk [("username", PyVal.pystr "u")] = false ∧
    process_user (envFailedWith .failed) [("username", PyVal.pystr "u")]
      = ([], Termination.earlyReturn) :=
  ⟨rfl, process_user_invalid_account _ _ rfl⟩

theorem filter_claimCallsOf (l : List (List (String × PyVal))) :
    (claimCallsOf l).filter isClaimCall = claimCallsOf l := by
  rw [List.filter_eq_self]
  intro c hcmem
  simp only [claimCallsOf, List.mem_map] at hcmem
  obtain ⟨kvs, _, rfl⟩ := hcmem
  rfl

/-- C4: when the claim-list shape is valid and no claim response makes
the logging path raise, the claim POSTs process_user issues are exactly
one POST with body containing the id, per item that is enabled and has
both id and campaign_name, in the order the items appear. -/
theorem process_user_claim_posts (env : NetEnv)
    (user : List (String × PyVal)) (attrs : List PyVal)
    (hu : requiredOk user = true)
    (hc : claimAttrs (outcomeVal env.claimList) = some attrs)
    (hr : ∀ i, claimRespHandle (env.claim i) = none) :
    (process_user env user).1.filter isClaimCall
      = claimCallsOf (attrs.filterMap enabledFilter) := by
  rw [process_user_good env user attrs hu hc hr]
  simp [List.filter_append, isClaimCall, filter_claimCallsOf]

/-- The first claim item of the concrete example of C4: enabled, with
id 1 and campaign_name A. -/
def sampleItemA : PyVal :=
  .pydict [("id", .pyint 1), ("campaign_name", .pystr "A"),
           ("enable", .pybool true)]

/-- The second claim item of the concrete example of C4: disabled. -/
def sampleItemB : PyVal :=
  .pydict [("id", .pyint 2), ("campaign_name", .pystr "B"),
           ("enable", .pybool false)]

/-- A claim-list response value with the given attribute list. -/
def claimListVal (attrs : List PyVal) : PyVal :=
  .pydict [("data", .pydict [("attribute", .pylist attrs)])]

theorem process_user_claim_posts_witness :
    requiredOk sampleUser = true ∧
    claimAttrs (outcomeVal (envFailedWith
      (.jsonValue (claimListVal [sampleItemA, sampleItemB]))).claimList)
      = some [sampleItemA, sampleItemB] ∧
    (process_user
      (envFailedWith (.jsonValue (claimListVal [sampleItemA, sampleItemB])))
      sampleUser).1.filter isClaimCall
      = [Call.claimPost (.pydict [("id", .pyint 1)])] := by
  refine ⟨rfl, rfl, ?_⟩
  have h := process_user_claim_posts
    (envFailedWith (.jsonValue (claimListVal [sampleItemA, sampleItemB])))
    sampleUser [sampleItemA, sampleItemB] rfl rfl (fun i => rfl)
  rw [h]
  rfl

/-- C5: with a validated claim list, Failed outcomes on the claim POSTs
do not stop the loop: every valid enabled item still gets its claim
POST, in order, and the refresh call is still issued afterwards, the
workflow finishing normally. -/
theorem process_user_failed_claims_continue (env : NetEnv)
    (user : List (String × PyVal)) (attrs : List PyVal)
    (hu : requiredOk user = true)
    (hc : claimAttrs (outcomeVal env.claimList) = some attrs)
    (hf : ∀ i, env.claim i = .failed) :
    (process_user env user).1
      = [Call.dashboard, Call.claimList]
        ++ claimCallsOf (attrs.filterMap enabledFilter) ++ [Call.refresh] ∧
    (process_user env user).2 = Termination.finished := by
  have hr : ∀ i, claimRespHandle (env.claim i) = none := fun i => by
    rw [hf i]; rfl
  rw [process_user_good env user attrs hu hc hr]
  exact ⟨rfl, rfl⟩

/-- An enabled claim item with id 2 and campaign_name B, used to show
two claims are both posted when the first POST fails. -/
def sampleItemC : PyVal :=
  .pydict [("id", .pyint 2), ("campaign_name", .pystr "B"),
           ("enable", .pybool true)]

theorem process_user_failed_claims_continue_witness :
    requiredOk sampleUser = true ∧
    (∀ i, (envFailedWith
      (.jsonValue (claimListVal [sampleItemA, sampleItemC]))).claim i
        = .failed) ∧
    (process_user
      (envFailedWith (.jsonValue (claimListVal [sampleItemA, sampleItemC])))
      sampleUser).1
      = [Call.dashboard, Call.claimList,
         Call.claimPost (.pydict [("id", .pyint 1)]),
         Call.claimPost (.pydict [("id", .pyint 2)]),
         Call.refresh] ∧
    (process_user
      (envFailedWith (.jsonValue (claimListVal [sampleItemA, sampleItemC])))
      sampleUser).2 = Termination.finished := by
  refine ⟨rfl, fun i => rfl, ?_, ?_⟩
  · have h := process_user_failed_claims_continue
      (envFailedWith (.jsonValue (claimListVal [sampleItemA, sampleItemC])))
      sampleUser [sampleItemA, sampleItemC] rfl rfl (fun i => rfl)
    rw [h.1]
    rfl
  · exact (process_user_failed_claims_continue
      (envFailedWith (.jsonValue (claimListVal [sampleItemA, sampleItemC])))
      sampleUser [sampleItemA, sampleItemC] rfl rfl (fun i => rfl)).2

/-- C10: the shape check of net.py line 100 is not total over JSON
values: a data value that is a number makes the membership test raise
TypeError, and a data value that is a string containing the word
attribute passes the first check because Python in is a substring test
on str, so the run raises TypeError instead of returning cleanly. -/
theorem claim_shape_check_not_total :
    claimDataInvalid (.pydict [("data", .pyint 7)]) = .error .typeError ∧
    pyContainsStr (.pystr "the attribute list") "attribute" = .ok true ∧
    claimDataInvalid (.pydict [("data", .pystr "the attribute list")])
      = .ok false ∧
    (process_user (envFailedWith (.jsonValue (.pydict [("data", .pyint 7)])))
      sampleUser).2 = Termination.raised .typeError ∧
    (process_user (envFailedWith
      (.jsonValue (.pydict [("data", .pystr "the attribute list")])))
      sampleUser).2 = Termination.raised .typeError :=
  ⟨rfl, rfl, rfl, rfl, rfl⟩

/-! Theorems about main and the top-level guard. -/

/-- C9: fetching a valid but empty account list does not complete
normally: main computes min(4, 0) = 0 workers, the pool constructor
raises ValueError, and the top-level guard catches it as a critical
error. -/
theorem main_empty_accounts_aborts :
    min 4 (List.length ([] : List PyVal)) = 0 ∧
    main (.jsonValue (.pylist [])) = .raised .valueError ∧
    runMain (.jsonValue (.pylist [])) = .criticalError .valueError :=
  ⟨rfl, rfl, rfl⟩

end TGBot
